import Mathlib

/-!
Verification development for the ecologie HTTP proxy (two FastAPI files:
`api/main.py` and `BACKEND/api/main.py`).  The repository reshapes flat query
parameters into CubeJS analytical queries and relays upstream JSON responses.
Python string primitives used by the source (`split`, `strip`, `title`,
slicing, `replace`, truthiness of optional strings) are embedded at character
level; each route handler is embedded as a function of its inputs and of the
upstream HTTP response it would receive, returning the outcome together with
the number of outbound calls performed.
-/

/-! ### Characters written via code points to keep literals unambiguous -/

def apostropheChar : Char := Char.ofNat 39

def dquoteChar : Char := Char.ofNat 34

def backslashChar : Char := Char.ofNat 92

def lbraceChar : Char := Char.ofNat 123

def rbraceChar : Char := Char.ofNat 125

/-! ### Python string primitives (character-level embedding) -/

/-- Python `s.split(sep)` for a one-character separator, on char lists:
`"".split(c) = [""]`, and every occurrence of the separator cuts. -/
def splitChar (sep : Char) : List Char → List (List Char)
  | [] => [[]]
  | c :: cs =>
    if c = sep then [] :: splitChar sep cs
    else
      match splitChar sep cs with
      | [] => [[c]]
      | g :: gs => (c :: g) :: gs

/-- Python `s.split(sep)` for a one-character separator. -/
def pySplit (s : String) (sep : Char) : List String :=
  (splitChar sep s.data).map String.mk

/-- Python `s.strip()`: drop leading and trailing whitespace. -/
def pyStrip (s : String) : String :=
  ⟨((s.data.dropWhile Char.isWhitespace).reverse.dropWhile Char.isWhitespace).reverse⟩

/-- Helper for `pyTitle`; the flag records whether the previous character was
alphabetic (i.e. we are inside a word). -/
def pyTitleAux : Bool → List Char → List Char
  | _, [] => []
  | prevAlpha, c :: cs =>
    if c.isAlpha then
      (if prevAlpha then c.toLower else c.toUpper) :: pyTitleAux true cs
    else
      c :: pyTitleAux false cs

/-- Python `s.title()` (ASCII model): the first letter of every maximal
alphabetic run is uppercased, the rest lowercased; non-letters separate words. -/
def pyTitle (s : String) : String := ⟨pyTitleAux false s.data⟩

/-- Python `s[:n]`: the first `n` characters. -/
def pySlice (s : String) (n : Nat) : String := ⟨s.data.take n⟩

/-- Python `s.replace(a, b)` for one-character `a` and `b`. -/
def pyReplaceChar (s : String) (a b : Char) : String :=
  ⟨s.data.map fun c => if c = a then b else c⟩

/-- Python truthiness of an `Optional[str]`: `None` and `""` are falsy. -/
def pyTruthy : Option String → Bool
  | none => false
  | some s => s != ""

/-- Python `a or b` on `Optional[str]` values. -/
def pyOr (a b : Option String) : Option String :=
  if pyTruthy a then a else b

/-! ### JSON values (parsed bodies) -/

/-- Parsed JSON values; numbers are integral, which covers every payload the
claims mention. -/
inductive Json where
  | null : Json
  | bool (b : Bool) : Json
  | num (n : Int) : Json
  | str (s : String) : Json
  | arr (items : List Json) : Json
  | obj (fields : List (String × Json)) : Json

/-- Python `d.get(key, dflt)`; `none` models the `AttributeError` raised when
the receiver is not a dict. -/
def pyGet (j : Json) (key : String) (dflt : Json) : Option Json :=
  match j with
  | Json.obj fields => some ((fields.lookup key).getD dflt)
  | _ => none

/-- Python `d[key]`; `none` models `KeyError`/`TypeError`. -/
def pyIndex (j : Json) (key : String) : Option Json :=
  match j with
  | Json.obj fields => fields.lookup key
  | _ => none

/-! ### Python `repr` of strings and of the query dictionaries

`str(query)` on the query dictionaries of the source renders keys and string
values with Python `repr`, lists as `[x, y]`, dict entries as `key: value`
joined by `, `.  `repr` of a string uses single quotes unless the string
contains an apostrophe and no double quote, in which case it uses double
quotes; printable characters are assumed (the source's inputs are HTTP query
parameters). -/

def pyEscDouble (c : Char) : List Char :=
  if c = backslashChar then [backslashChar, backslashChar] else [c]

def pyEscSingle (c : Char) : List Char :=
  if c = backslashChar then [backslashChar, backslashChar]
  else if c = apostropheChar then [backslashChar, apostropheChar]
  else [c]

def strContainsChar (s : String) (c : Char) : Bool := s.data.contains c

/-- Python `repr` of a string of printable characters. -/
def pyReprStr (s : String) : String :=
  if strContainsChar s apostropheChar && !(strContainsChar s dquoteChar) then
    ⟨dquoteChar :: (s.data.map pyEscDouble).flatten ++ [dquoteChar]⟩
  else
    ⟨apostropheChar :: (s.data.map pyEscSingle).flatten ++ [apostropheChar]⟩

def joinCommaSp (xs : List String) : String := String.intercalate ", " xs

/-- Python `str` of a list of strings. -/
def pyReprStrList (xs : List String) : String :=
  "[" ++ joinCommaSp (xs.map pyReprStr) ++ "]"

/-! ### A JSON validity checker

Used to decide whether the exact string the proxy sends upstream is valid
(strictly double-quoted) JSON.  The checker is complete: every document the
JSON grammar (RFC 8259) accepts is accepted here (string escapes and numbers
are checked leniently, i.e. a superset is accepted, which only strengthens a
negative verdict). -/

def jsonWsChar (c : Char) : Bool := c = ' ' || c = '\t' || c = '\n' || c = '\r'

def skipWs (xs : List Char) : List Char := xs.dropWhile jsonWsChar

/-- Consume the remainder of a JSON string literal (the opening double quote
already consumed); a backslash escapes the following character. -/
def jsonStringRest : List Char → Option (List Char)
  | [] => none
  | c :: cs =>
    if c = dquoteChar then some cs
    else if c = backslashChar then
      match cs with
      | [] => none
      | _ :: cs2 => jsonStringRest cs2
    else if c.toNat < 32 then none
    else jsonStringRest cs

def jsonNumChar (c : Char) : Bool :=
  c.isDigit || c = '-' || c = '+' || c = '.' || c = 'e' || c = 'E'

/-- Consume a (superset of a) JSON number: a maximal run of number characters
starting with a digit or a minus sign. -/
def jsonNumberRest (xs : List Char) : Option (List Char) :=
  match xs with
  | c :: _ => if c = '-' || c.isDigit then some (xs.dropWhile jsonNumChar) else none
  | [] => none

def expectChars : List Char → List Char → Option (List Char)
  | [], xs => some xs
  | l :: ls, x :: xs => if x = l then expectChars ls xs else none
  | _ :: _, [] => none

/-- Parsing modes of the recursive-descent JSON checker. -/
inductive JMode where
  | value : JMode
  | arrStart : JMode
  | arrNext : JMode
  | objStart : JMode
  | objPair : JMode
  | objNext : JMode

/-- One checker, structurally recursive on a fuel parameter; returns the
unconsumed rest of the input on success. -/
def pstep : Nat → JMode → List Char → Option (List Char)
  | 0, _, _ => none
  | fuel + 1, mode, xs =>
    match mode with
    | JMode.value =>
      match skipWs xs with
      | [] => none
      | c :: rest =>
        if c = dquoteChar then jsonStringRest rest
        else if c = lbraceChar then pstep fuel JMode.objStart rest
        else if c = '[' then pstep fuel JMode.arrStart rest
        else if c = 't' then expectChars ['r', 'u', 'e'] rest
        else if c = 'f' then expectChars ['a', 'l', 's', 'e'] rest
        else if c = 'n' then expectChars ['u', 'l', 'l'] rest
        else jsonNumberRest (c :: rest)
    | JMode.arrStart =>
      match skipWs xs with
      | [] => none
      | c :: rest =>
        if c = ']' then some rest
        else
          match pstep fuel JMode.value (c :: rest) with
          | none => none
          | some rest2 => pstep fuel JMode.arrNext rest2
    | JMode.arrNext =>
      match skipWs xs with
      | [] => none
      | c :: rest =>
        if c = ']' then some rest
        else if c = ',' then
          match pstep fuel JMode.value rest with
          | none => none
          | some rest2 => pstep fuel JMode.arrNext rest2
        else none
    | JMode.objStart =>
      match skipWs xs with
      | [] => none
      | c :: rest =>
        if c = rbraceChar then some rest
        else pstep fuel JMode.objPair (c :: rest)
    | JMode.objPair =>
      match skipWs xs with
      | [] => none
      | c :: rest =>
        if c = dquoteChar then
          match jsonStringRest rest with
          | none => none
          | some rest2 =>
            match skipWs rest2 with
            | ':' :: rest3 =>
              match pstep fuel JMode.value rest3 with
              | none => none
              | some rest4 => pstep fuel JMode.objNext rest4
            | _ => none
        else none
    | JMode.objNext =>
      match skipWs xs with
      | [] => none
      | c :: rest =>
        if c = rbraceChar then some rest
        else if c = ',' then pstep fuel JMode.objPair rest
        else none

/-- A string is valid JSON when one value parses and only whitespace remains. -/
def jsonValid (s : String) : Bool :=
  match pstep (2 * s.data.length + 8) JMode.value s.data with
  | some rest => (skipWs rest).isEmpty
  | none => false


/-! ### Data model of the queries built by the source -/

/-- One CubeJS filter, as built by both source files. -/
structure QFilter where
  member : String
  operator : String
  values : List String

/-- The query dict built by `query_indicateurs` (`api/main.py`), in insertion
order: `measures`, `limit`, then `dimensions` (only when the `dimensions`
parameter is truthy), then `filters` (only when the `filters` parameter is
truthy). -/
structure OpenQuery where
  measures : List String
  limit : Int
  dimensions : Option (List String)
  filters : Option (List QFilter)

/-- `api/main.py`, lines 124-130: split one filter expression on `:`; an
expression with at least three fields yields a filter from the first three
fields, anything shorter is dropped. -/
def parseFilterExpr (f : String) : Option QFilter :=
  match pySplit f ':' with
  | a :: b :: c :: _ => some ⟨a, b, [c]⟩
  | _ => none

/-- `api/main.py`, lines 122-130: the filters list built from the
semicolon-separated filter expressions. -/
def parseFilters (fs : String) : List QFilter :=
  (pySplit fs ';').filterMap parseFilterExpr

/-- `api/main.py`, lines 115-131: the query dict of `query_indicateurs`. -/
def buildOpenQuery (measures dimensions filters : String) (limit : Int) : OpenQuery :=
  { measures := (pySplit measures ',').map pyStrip
    limit := limit
    dimensions := if dimensions = "" then none
                  else some ((pySplit dimensions ',').map pyStrip)
    filters := if filters = "" then none else some (parseFilters filters) }

/-- Python `str` of one filter dict, insertion order `member`, `operator`,
`values`. -/
def pyReprFilter (f : QFilter) : String :=
  "\x7b" ++ pyReprStr "member" ++ ": " ++ pyReprStr f.member ++ ", "
    ++ pyReprStr "operator" ++ ": " ++ pyReprStr f.operator ++ ", "
    ++ pyReprStr "values" ++ ": " ++ pyReprStrList f.values ++ "\x7d"

/-- Python `str(query)` for the `query_indicateurs` query dict. -/
def serializeOpenQuery (q : OpenQuery) : String :=
  "\x7b" ++ pyReprStr "measures" ++ ": " ++ pyReprStrList q.measures
    ++ ", " ++ pyReprStr "limit" ++ ": " ++ toString q.limit
    ++ (match q.dimensions with
        | none => ""
        | some ds => ", " ++ pyReprStr "dimensions" ++ ": " ++ pyReprStrList ds)
    ++ (match q.filters with
        | none => ""
        | some fs =>
          ", " ++ pyReprStr "filters" ++ ": "
            ++ "[" ++ joinCommaSp (fs.map pyReprFilter) ++ "]")
    ++ "\x7d"

/-- `api/main.py`, line 138: the exact query string `query_indicateurs` sends
upstream, `str(query).replace` of apostrophes by double quotes. -/
def query_indicateurs_sent (measures dimensions filters : String) (limit : Int) : String :=
  pyReplaceChar (serializeOpenQuery (buildOpenQuery measures dimensions filters limit))
    apostropheChar dquoteChar

/-! ### Upstream responses and route handlers -/

/-- An upstream HTTP response: status code, raw body text, and the result of
parsing the body as JSON (`none` when `response.json()` would raise).  The
claims use `text` and `json` independently, so both are carried. -/
structure UpstreamResp where
  status : Nat
  text : String
  json : Option Json

/-- A FastAPI `HTTPException`: status code and detail string. -/
structure HttpError where
  status : Nat
  detail : String

/-- Modelled framework text of the FastAPI 422 response for an out-of-range
`limit` (`Query(100, ge=1, le=1000)`); the exact wording is
framework-generated. -/
def validationDetail : String := "limit must be within [1, 1000]"

/-- `api/main.py`, `query_indicateurs` (lines 98-145): the declared
`Query(100, ge=1, le=1000)` bound is checked by FastAPI before the handler
runs; then the token check, then the single outbound load call, represented by
`upstream` mapping the sent query string to the response received.  The result
pairs the outcome (`none` = an unmodelled exception such as a JSON decode
error) with the number of outbound calls performed.  The `cube` parameter is
declared by the route but never used by the handler's query construction. -/
def query_indicateurs (cube measures dimensions filters : String) (limit : Int)
    (token envToken : Option String) (upstream : String → UpstreamResp) :
    Option (Except HttpError Json) × Nat :=
  if limit < 1 ∨ 1000 < limit then
    (some (Except.error ⟨422, validationDetail⟩), 0)
  else if pyTruthy (pyOr token envToken) = false then
    (some (Except.error ⟨401, "Token JWT manquant"⟩), 0)
  else
    let resp := upstream (query_indicateurs_sent measures dimensions filters limit)
    if resp.status ≠ 200 then
      (some (Except.error ⟨resp.status, pySlice resp.text 500⟩), 1)
    else
      match resp.json with
      | some body => (some (Except.ok body), 1)
      | none => (none, 1)

/-- `api/main.py`, lines 85-93: the simplified cube descriptor built for one
cube of the meta payload (`cube["name"]`, `cube.get("title", cube["name"])`,
the `name` of each entry of `cube.get("measures", [])` and of
`cube.get("dimensions", [])`). -/
def extractCube (cube : Json) : Option Json := do
  let name ← pyIndex cube "name"
  let title ← pyGet cube "title" name
  let ms ← pyGet cube "measures" (Json.arr [])
  let measures ← match ms with
    | Json.arr items => items.mapM (fun m => pyIndex m "name")
    | _ => none
  let ds ← pyGet cube "dimensions" (Json.arr [])
  let dims ← match ds with
    | Json.arr items => items.mapM (fun d => pyIndex d "name")
    | _ => none
  pure (Json.obj [("name", name), ("title", title),
    ("measures", Json.arr measures), ("dimensions", Json.arr dims)])

/-- `api/main.py`, lines 83-95: the `{"cubes": ..., "total": len(cubes)}`
payload built from the parsed meta body, with no status inspection. -/
def cubesPayload (data : Json) : Option Json :=
  match pyGet data "cubes" (Json.arr []) with
  | none => none
  | some cubesRaw =>
    match cubesRaw with
    | Json.arr xs =>
      match xs.mapM extractCube with
      | none => none
      | some cubes =>
        some (Json.obj [("cubes", Json.arr cubes),
          ("total", Json.num (Int.ofNat cubes.length))])
    | _ => none

/-- `api/main.py`, `get_indicateurs_cubes` (lines 72-95): token check, then one
meta call whose status code is never inspected; the body is parsed and
reshaped. -/
def get_indicateurs_cubes (token envToken : Option String) (resp : UpstreamResp) :
    Option (Except HttpError Json) × Nat :=
  if pyTruthy (pyOr token envToken) = false then
    (some (Except.error ⟨401, "Token JWT manquant"⟩), 0)
  else
    match resp.json with
    | none => (none, 1)
    | some body =>
      match cubesPayload body with
      | none => (none, 1)
      | some out => (some (Except.ok out), 1)

/-! ### `BACKEND/api/main.py` -/

/-- The fixed-indicator query shape built by `query_cube`. -/
structure CubeQuery where
  measures : List String
  dimensions : List String
  filters : List QFilter
  order : List (String × String)
  limit : Int

/-- `BACKEND/api/main.py`, lines 28-40: the query dict built by `query_cube`
for a cube, a measure and a free-text commune name. -/
def query_cube_query (cube measure commune : String) : CubeQuery :=
  let communeFormatted := pyTitle (pyStrip commune)
  { measures := [measure]
    dimensions := [cube ++ ".libelle_commune", cube ++ ".annee"]
    filters := [⟨cube ++ ".libelle_commune", "equals", [communeFormatted]⟩,
                ⟨cube ++ ".annee", "gte", ["2020"]⟩]
    order := [(cube ++ ".annee", "desc")]
    limit := 10 }

/-- `BACKEND/api/main.py`, lines 47-49: the result handling of `query_cube`:
on status 200 return `response.json().get("data", [])`, otherwise return the
empty list; `none` models an exception (body not JSON / not a dict). -/
def query_cube (resp : UpstreamResp) : Option Json :=
  if resp.status = 200 then
    match resp.json with
    | none => none
    | some body => pyGet body "data" (Json.arr [])
  else some (Json.arr [])

/-- The five-category payload of `get_indicateurs`. -/
structure IndicPayload where
  mobilite : Json
  energie : Json
  ges : Json
  biodiversite : Json
  eau : Json

/-- `BACKEND/api/main.py`, `get_indicateurs` (lines 52-83): env-token check,
then five sequential `query_cube` calls (mobilite, energie, ges, biodiversite,
eau), each degraded to `[]` on upstream failure by `query_cube` itself. -/
def get_indicateurs (envToken : Option String) (r1 r2 r3 r4 r5 : UpstreamResp) :
    Option (Except HttpError IndicPayload) × Nat :=
  if pyTruthy envToken = false then
    (some (Except.error ⟨401, "Token manquant dans .env"⟩), 0)
  else
    match query_cube r1 with
    | none => (none, 1)
    | some mobilite =>
      match query_cube r2 with
      | none => (none, 2)
      | some energie =>
        match query_cube r3 with
        | none => (none, 3)
        | some ges =>
          match query_cube r4 with
          | none => (none, 4)
          | some biodiversite =>
            match query_cube r5 with
            | none => (none, 5)
            | some eau =>
              (some (Except.ok ⟨mobilite, energie, ges, biodiversite, eau⟩), 5)

/-- The five payload categories, indexed in source order. -/
def payloadFields (p : IndicPayload) : Fin 5 → Json :=
  ![p.mobilite, p.energie, p.ges, p.biodiversite, p.eau]

/-- The `data` field a successful `query_cube` extracts from a response whose
body parsed to a JSON object. -/
def dataOf (r : UpstreamResp) : Json :=
  match r.json with
  | some (Json.obj fields) => (fields.lookup "data").getD (Json.arr [])
  | _ => Json.arr []

/-! ### Concrete inputs used by witnesses -/

/-- The one-character string holding an apostrophe. -/
def aposStr : String := ⟨[apostropheChar]⟩

/-- A 501-character upstream error body. -/
def longBody : String := ⟨List.replicate 501 'x'⟩

/-- A successful `query_cube` upstream response carrying `{"data": [1]}`. -/
def wOkResp : UpstreamResp :=
  ⟨200, "", some (Json.obj [("data", Json.arr [Json.num 1])])⟩

/-- A failed `query_cube` upstream response. -/
def wFailResp : UpstreamResp := ⟨500, "err", none⟩

/-- Five per-category responses where exactly the first call fails. -/
def wResp : Fin 5 → UpstreamResp := fun j => if j = 0 then wFailResp else wOkResp

/-! ### Helper lemmas -/

theorem pyOr_falsy (a b : Option String) (h : pyTruthy (pyOr a b) = false) :
    pyTruthy b = false := by
  unfold pyOr at h
  by_cases ht : pyTruthy a
  · rw [if_pos ht] at h; rw [ht] at h; exact absurd h (by simp)
  · rwa [if_neg ht] at h

theorem pySlice_length (s : String) (n : Nat) (h : n ≤ s.length) :
    (pySlice s n).length = n := by
  show (s.data.take n).length = n
  rw [List.length_take]
  exact Nat.min_eq_left h

theorem query_cube_fail (r : UpstreamResp) (h : r.status ≠ 200) :
    query_cube r = some (Json.arr []) := by
  simp [query_cube, h]

theorem query_cube_ok (r : UpstreamResp) (h200 : r.status = 200)
    (fields : List (String × Json)) (hj : r.json = some (Json.obj fields)) :
    query_cube r = some (dataOf r) := by
  simp [query_cube, h200, hj, pyGet, dataOf]

theorem cubesPayload_shape (body out : Json) (h : cubesPayload body = some out) :
    ∃ cubes : List Json, out = Json.obj [("cubes", Json.arr cubes),
      ("total", Json.num (Int.ofNat cubes.length))] := by
  unfold cubesPayload at h
  split at h
  · exact absurd h (by simp)
  · split at h
    · split at h
      · exact absurd h (by simp)
      · exact ⟨_, (Option.some.injEq _ _ ▸ h.symm)⟩
    · exact absurd h (by simp)

/-! ### Claims -/

/-- Claim C2: every semicolon-separated filter expression that splits on
`:` into fewer than 3 fields contributes no filter, and an expression with
exactly 3 fields contributes exactly one filter whose member is the first
field, operator the second, and values the singleton of the third; the
constructed query's filters are exactly the per-expression contributions. -/
theorem c2_filter_expression_parsing (ms ds f fs : String) (lim : Int) :
    ((pySplit f ':').length < 3 → parseFilterExpr f = none) ∧
    (∀ a b c, pySplit f ':' = [a, b, c] → parseFilterExpr f = some ⟨a, b, [c]⟩) ∧
    (fs ≠ "" → (buildOpenQuery ms ds fs lim).filters
      = some ((pySplit fs ';').filterMap parseFilterExpr)) := by
  refine ⟨?_, ?_, ?_⟩
  · intro h
    simp only [parseFilterExpr]
    split
    · next a b c rest heq => rw [heq] at h; simp at h; omega
    · rfl
  · intro a b c h
    simp only [parseFilterExpr]
    rw [h]
  · intro h
    simp [buildOpenQuery, parseFilters, h]

/-- Witness for C2 at the spec's own examples. -/
theorem c2_filter_expression_parsing_witness :
    parseFilterExpr "cube.commune:equals" = none ∧
    parseFilterExpr "cube.commune:equals:Paris"
      = some ⟨"cube.commune", "equals", ["Paris"]⟩ := by
  refine ⟨(c2_filter_expression_parsing "m" "" "cube.commune:equals" "x" 100).1
      (by decide),
    (c2_filter_expression_parsing "m" "" "cube.commune:equals:Paris" "x" 100).2.1
      "cube.commune" "equals" "Paris" (by decide)⟩

/-- Claim C9: a filter expression whose colon-split yields more than 3 fields
is not dropped: it yields the filter built from the first three fields, every
later field being discarded. -/
theorem c9_extra_fields_truncated (f a b c : String) (rest : List String)
    (h : pySplit f ':' = a :: b :: c :: rest) (hne : rest ≠ []) :
    parseFilterExpr f = some ⟨a, b, [c]⟩ := by
  simp only [parseFilterExpr]
  rw [h]

/-- Witness for C9: a value containing a colon is truncated at that colon. -/
theorem c9_extra_fields_truncated_witness :
    parseFilterExpr "cube.annee:equals:12:30"
      = some ⟨"cube.annee", "equals", ["12"]⟩ :=
  c9_extra_fields_truncated "cube.annee:equals:12:30" "cube.annee" "equals" "12"
    ["30"] (by decide) (by decide)

/-- Claim C8: the fixed-indicator query builder produces exactly the two
dimensions location-label and year, an exact-match location filter on the
trimmed and title-cased location name, a year `gte` filter at the constant
threshold 2020, ordering by year descending, and limit 10. -/
theorem c8_fixed_indicator_query_shape (cube measure commune : String) :
    (query_cube_query cube measure commune).measures = [measure] ∧
    (query_cube_query cube measure commune).dimensions
      = [cube ++ ".libelle_commune", cube ++ ".annee"] ∧
    (query_cube_query cube measure commune).filters
      = [⟨cube ++ ".libelle_commune", "equals", [pyTitle (pyStrip commune)]⟩,
         ⟨cube ++ ".annee", "gte", ["2020"]⟩] ∧
    (query_cube_query cube measure commune).order = [(cube ++ ".annee", "desc")] ∧
    (query_cube_query cube measure commune).limit = 10 :=
  ⟨rfl, rfl, rfl, rfl, rfl⟩

/-- Claim C3: on upstream success (status 200, the status the source tests
for), `query_cube` returns the parsed `data` field of the response body, and
the empty sequence when the body has no `data` key. -/
theorem c3_success_returns_data (resp : UpstreamResp) (fields : List (String × Json))
    (hs : resp.status = 200) (hj : resp.json = some (Json.obj fields)) :
    (∀ d, fields.lookup "data" = some d → query_cube resp = some d) ∧
    (fields.lookup "data" = none → query_cube resp = some (Json.arr [])) := by
  constructor
  · intro d hd; simp [query_cube, hs, hj, pyGet, hd]
  · intro hd; simp [query_cube, hs, hj, pyGet, hd]

/-- Witness for C3 at the spec's own examples. -/
theorem c3_success_returns_data_witness :
    query_cube ⟨200, "", some (Json.obj [("data", Json.arr [Json.obj [("x", Json.num 1)]])])⟩
      = some (Json.arr [Json.obj [("x", Json.num 1)]]) ∧
    query_cube ⟨200, "", some (Json.obj [("other", Json.null)])⟩
      = some (Json.arr []) :=
  ⟨(c3_success_returns_data _ [("data", Json.arr [Json.obj [("x", Json.num 1)]])]
      rfl rfl).1 _ rfl,
   (c3_success_returns_data _ [("other", Json.null)] rfl rfl).2 rfl⟩

/-- Claim C7: an out-of-range `limit` (0 or negative, or above the declared
maximum 1000) is rejected with a validation error before any query is
constructed and with zero outbound calls. -/
theorem c7_limit_bound_rejected (cube measures dimensions filters : String)
    (limit : Int) (h : limit < 1 ∨ 1000 < limit) (token envToken : Option String)
    (upstream : String → UpstreamResp) :
    query_indicateurs cube measures dimensions filters limit token envToken upstream
      = (some (Except.error ⟨422, validationDetail⟩), 0) := by
  unfold query_indicateurs
  rw [if_pos h]

/-- Witness for C7 at `limit = 0` and `limit = 5000`. -/
theorem c7_limit_bound_rejected_witness :
    query_indicateurs "c" "m" "" "" 0 (some "t") none (fun _ => ⟨200, "", none⟩)
      = (some (Except.error ⟨422, validationDetail⟩), 0) ∧
    query_indicateurs "c" "m" "" "" 5000 (some "t") none (fun _ => ⟨200, "", none⟩)
      = (some (Except.error ⟨422, validationDetail⟩), 0) :=
  ⟨c7_limit_bound_rejected "c" "m" "" "" 0 (Or.inl (by decide)) _ _ _,
   c7_limit_bound_rejected "c" "m" "" "" 5000 (Or.inr (by decide)) _ _ _⟩

/-- Claim C5: with no credential configured in the environment and none
supplied as a request parameter, every `/indicateurs/*` route fails with a 401
error and performs zero outbound calls. -/
theorem c5_missing_credential_401 (token envToken : Option String)
    (h : pyTruthy (pyOr token envToken) = false)
    (cube measures dimensions filters : String) (limit : Int)
    (hlo : 1 ≤ limit) (hhi : limit ≤ 1000)
    (upstream : String → UpstreamResp) (metaResp : UpstreamResp)
    (r1 r2 r3 r4 r5 : UpstreamResp) :
    get_indicateurs_cubes token envToken metaResp
      = (some (Except.error ⟨401, "Token JWT manquant"⟩), 0) ∧
    query_indicateurs cube measures dimensions filters limit token envToken upstream
      = (some (Except.error ⟨401, "Token JWT manquant"⟩), 0) ∧
    get_indicateurs envToken r1 r2 r3 r4 r5
      = (some (Except.error ⟨401, "Token manquant dans .env"⟩), 0) := by
  refine ⟨?_, ?_, ?_⟩
  · simp [get_indicateurs_cubes, h]
  · unfold query_indicateurs
    rw [if_neg (by omega), if_pos h]
  · simp [get_indicateurs, pyOr_falsy token envToken h]

/-- Witness for C5: no token in the environment, none as parameter. -/
theorem c5_missing_credential_401_witness :
    get_indicateurs_cubes none none ⟨200, "", none⟩
      = (some (Except.error ⟨401, "Token JWT manquant"⟩), 0) ∧
    query_indicateurs "c" "m" "" "" 100 none none (fun _ => ⟨200, "", none⟩)
      = (some (Except.error ⟨401, "Token JWT manquant"⟩), 0) ∧
    get_indicateurs none ⟨200, "", none⟩ ⟨200, "", none⟩ ⟨200, "", none⟩
        ⟨200, "", none⟩ ⟨200, "", none⟩
      = (some (Except.error ⟨401, "Token manquant dans .env"⟩), 0) :=
  c5_missing_credential_401 none none rfl "c" "m" "" "" 100 (by decide) (by decide)
    _ _ _ _ _ _ _

/-- Claim C6: when the upstream load call of the open-shape query endpoint
returns a non-success status with a body longer than 500 characters, the
surfaced error carries the upstream status code and a body excerpt of exactly
500 characters. -/
theorem c6_error_excerpt_500 (cube measures dimensions filters : String)
    (limit : Int) (hlo : 1 ≤ limit) (hhi : limit ≤ 1000)
    (token envToken : Option String)
    (hauth : pyTruthy (pyOr token envToken) = true)
    (upstream : String → UpstreamResp)
    (hstat : (upstream (query_indicateurs_sent measures dimensions filters limit)).status ≠ 200)
    (hlen : 500 < (upstream (query_indicateurs_sent measures dimensions filters limit)).text.length) :
    query_indicateurs cube measures dimensions filters limit token envToken upstream
      = (some (Except.error
          ⟨(upstream (query_indicateurs_sent measures dimensions filters limit)).status,
           pySlice (upstream (query_indicateurs_sent measures dimensions filters limit)).text 500⟩), 1) ∧
    (pySlice (upstream (query_indicateurs_sent measures dimensions filters limit)).text 500).length
      = 500 := by
  constructor
  · unfold query_indicateurs
    rw [if_neg (by omega), if_neg (by simp [hauth])]
    simp [hstat]
  · exact pySlice_length _ 500 (Nat.le_of_lt hlen)

/-- Witness for C6 at a 501-character error body. -/
theorem c6_error_excerpt_500_witness :
    query_indicateurs "c" "m" "" "" 100 (some "t") none (fun _ => ⟨500, longBody, none⟩)
      = (some (Except.error ⟨500, pySlice longBody 500⟩), 1) ∧
    (pySlice longBody 500).length = 500 :=
  c6_error_excerpt_500 "c" "m" "" "" 100 (by decide) (by decide) (some "t") none rfl
    (fun _ => ⟨500, longBody, none⟩) (by decide)
    (by show (500 : Nat) < longBody.length
        show (500 : Nat) < (List.replicate 501 'x').length
        rw [List.length_replicate]
        omega)

/-- Claim C10: the cube-listing route never inspects the upstream status code:
its result depends only on the parsed body, any error it raises is the 401
credential error (never an upstream-status error), and a successful result
carries a `total` equal to the length of its `cubes` list. -/
theorem c10_cubes_status_blind (token envToken : Option String)
    (r r2 : UpstreamResp) (hj : r.json = r2.json) :
    get_indicateurs_cubes token envToken r = get_indicateurs_cubes token envToken r2 ∧
    (∀ e, (get_indicateurs_cubes token envToken r).1 = some (Except.error e) →
      e = ⟨401, "Token JWT manquant"⟩) ∧
    (∀ out, (get_indicateurs_cubes token envToken r).1 = some (Except.ok out) →
      ∃ cubes : List Json, pyIndex out "cubes" = some (Json.arr cubes) ∧
        pyIndex out "total" = some (Json.num (Int.ofNat cubes.length))) := by
  refine ⟨?_, ?_, ?_⟩
  · unfold get_indicateurs_cubes
    rw [hj]
  · intro e he
    by_cases hp : pyTruthy (pyOr token envToken) = false
    · unfold get_indicateurs_cubes at he
      rw [if_pos hp] at he
      exact (Except.error.inj (Option.some.inj he)).symm
    · rcases hrj : r.json with _ | body
      · simp [get_indicateurs_cubes, hp, hrj] at he
      · rcases hcp : cubesPayload body with _ | out
        · simp [get_indicateurs_cubes, hp, hrj, hcp] at he
        · simp [get_indicateurs_cubes, hp, hrj, hcp] at he
  · intro out hout
    by_cases hp : pyTruthy (pyOr token envToken) = false
    · unfold get_indicateurs_cubes at hout
      rw [if_pos hp] at hout
      exact absurd hout (by simp)
    · rcases hrj : r.json with _ | body
      · simp [get_indicateurs_cubes, hp, hrj] at hout
      · rcases hcp : cubesPayload body with _ | out2
        · simp [get_indicateurs_cubes, hp, hrj, hcp] at hout
        · simp [get_indicateurs_cubes, hp, hrj, hcp] at hout
          obtain ⟨cubes, hshape⟩ := cubesPayload_shape body out2 hcp
          subst hshape
          subst hout
          exact ⟨cubes, rfl, rfl⟩

/-- Witness for C10: the same parsed body behind status 500 and status 200. -/
theorem c10_cubes_status_blind_witness :
    get_indicateurs_cubes (some "t") none ⟨500, "a", some (Json.obj [("cubes", Json.arr [])])⟩
      = get_indicateurs_cubes (some "t") none ⟨200, "b", some (Json.obj [("cubes", Json.arr [])])⟩ :=
  (c10_cubes_status_blind (some "t") none _ _ rfl).1

/-- Claim C4: on the fixed-indicator aggregate route, whenever exactly one of
the five per-category upstream calls fails, the response still carries all
five categories, the failed one equal to the empty sequence and the four
others equal to their upstream data arrays. -/
theorem c4_one_category_failure (envToken : Option String)
    (henv : pyTruthy envToken = true)
    (r : Fin 5 → UpstreamResp) (i : Fin 5)
    (hfail : (r i).status ≠ 200)
    (hok : ∀ j, j ≠ i → (r j).status = 200 ∧
      ∃ fields, (r j).json = some (Json.obj fields)) :
    ∃ p : IndicPayload,
      get_indicateurs envToken (r 0) (r 1) (r 2) (r 3) (r 4)
        = (some (Except.ok p), 5) ∧
      payloadFields p i = Json.arr [] ∧
      ∀ j, j ≠ i → payloadFields p j = dataOf (r j) := by
  have key : ∀ j, query_cube (r j)
      = some (if j = i then Json.arr [] else dataOf (r j)) := by
    intro j
    by_cases hj : j = i
    · subst hj
      rw [if_pos rfl]
      exact query_cube_fail _ hfail
    · rw [if_neg hj]
      obtain ⟨hs, fields, hjson⟩ := hok j hj
      exact query_cube_ok _ hs fields hjson
  refine ⟨⟨if (0 : Fin 5) = i then Json.arr [] else dataOf (r 0),
           if (1 : Fin 5) = i then Json.arr [] else dataOf (r 1),
           if (2 : Fin 5) = i then Json.arr [] else dataOf (r 2),
           if (3 : Fin 5) = i then Json.arr [] else dataOf (r 3),
           if (4 : Fin 5) = i then Json.arr [] else dataOf (r 4)⟩, ?_, ?_, ?_⟩
  · rw [get_indicateurs, key 0, key 1, key 2, key 3, key 4, henv]
    simp
  · fin_cases i <;> simp [payloadFields]
  · intro j hj
    fin_cases j <;> fin_cases i <;> simp_all [payloadFields]

/-- Witness for C4: the first category's call fails, the other four succeed. -/
theorem c4_one_category_failure_witness :
    ∃ p : IndicPayload,
      get_indicateurs (some "t") (wResp 0) (wResp 1) (wResp 2) (wResp 3) (wResp 4)
        = (some (Except.ok p), 5) ∧
      payloadFields p 0 = Json.arr [] ∧
      ∀ j, j ≠ (0 : Fin 5) → payloadFields p j = dataOf (wResp j) :=
  c4_one_category_failure (some "t") rfl wResp 0
    (by decide)
    (by intro j hj
        refine ⟨?_, [("data", Json.arr [Json.num 1])], ?_⟩
        · unfold wResp
          rw [if_neg hj]
          rfl
        · unfold wResp
          rw [if_neg hj]
          rfl)

set_option maxRecDepth 40000 in
/-- Claim C1 (refuted evaluation): at a filter value containing a literal
apostrophe, the exact query string the open-shape endpoint sends upstream is
not valid JSON (the apostrophe of the double-quoted Python repr becomes a
stray interior double quote under the blanket quote replacement). -/
theorem c1_apostrophe_not_json :
    jsonValid (query_indicateurs_sent "cube.id_1" ""
      ("cube.libelle_commune:equals:L" ++ aposStr ++ "Isle") 10) = false := by
  decide
